import Mathlib

/-!
Verification of the k8s-watchdog reconciliation loop.

This file shallowly embeds the watchdog program: the per-pod classifier
shouldRestartPod, the per-cycle tracker logic of checkPods (the map from
pod name to first-observed-stuck timestamp), the remediation call issued
by restartPod (a delete with grace period 0 and foreground propagation),
and the environment-derived configuration getPendingTimeout and
getCheckInterval.

Conventions of the embedding:
- time instants and durations are modelled as Int; the Go code compares
  durations with the same strict or non-strict comparisons that are kept
  here verbatim;
- the wall clock read by time.Since and time.Now is made an explicit
  parameter now, threaded exactly where the Go code reads the clock;
- the Go pair (bool, string) returned by shouldRestartPod is kept as
  Bool × String, where the empty string stands for the absent reason;
- the process-wide map podProblemTimes is modelled as a function
  String → Option Int keyed, as in the source, by the pod name only;
- the remediation error branch of checkPods only selects log lines in the
  source, so the embedding takes a Boolean oracle restartFails that is
  consulted exactly there;
- lengths of log lines are kept faithful in content (name, reason,
  elapsed duration) though not in the duration rendering format.
-/

/-- Lifecycle phase of a pod, as in corev1.PodPhase. -/
inductive Phase
  | pending
  | running
  | succeeded
  | failed
  | unknown
deriving DecidableEq, Repr

/-- One entry of pod.Status.ContainerStatuses: the Waiting state carries a
reason, the Running state carries a start timestamp, and Ready is the
readiness flag. As in the Go struct, Waiting and Running are independent
optional fields. The Terminated state is never read by the program and is
omitted. -/
structure ContainerStatus where
  waitingReason : Option String
  runningStartedAt : Option Int
  ready : Bool
deriving DecidableEq, Repr

/-- The fields of a corev1.Pod that the watchdog reads. -/
structure Pod where
  name : String
  ns : String
  phase : Phase
  creationTimestamp : Int
  containerStatuses : List ContainerStatus
deriving DecidableEq, Repr

/-- The map reasonsToWatch of shouldRestartPod, as a membership test. -/
def reasonsToWatch (r : String) : Bool :=
  r = "ContainerCreating" || r = "ErrImagePull" || r = "ImagePullBackOff" ||
    r = "CrashLoopBackOff" || r = "CreateContainerConfigError"

/-- The Waiting branch of the container loop in shouldRestartPod: a
watched waiting reason together with pod age beyond the timeout yields
that reason. -/
def waitingCheck (creation timeout now : Int) (cs : ContainerStatus) : Option String :=
  match cs.waitingReason with
  | some r => if reasonsToWatch r && decide (now - creation > timeout) then some r else none
  | none => none

/-- The Running-but-not-Ready branch of the container loop in
shouldRestartPod. -/
def runningCheck (timeout now : Int) (cs : ContainerStatus) : Bool :=
  match cs.runningStartedAt with
  | some startedAt => !cs.ready && decide (now - startedAt > timeout)
  | none => false

/-- The container loop of shouldRestartPod: for each container status in
order, first the Waiting branch, then the Running branch, returning on
the first hit. -/
def scanContainers (creation timeout now : Int) : List ContainerStatus → Bool × String
  | [] => (false, "")
  | cs :: rest =>
    match waitingCheck creation timeout now cs with
    | some r => (true, r)
    | none =>
      if runningCheck timeout now cs then (true, "RunningNotReady")
      else scanContainers creation timeout now rest

/-- shouldRestartPod from the source: Succeeded, Failed and Unknown pods
are never flagged; Pending and Running pods are scanned container by
container. The extra parameter now is the wall clock the Go code reads
through time.Since. -/
def shouldRestartPod (pod : Pod) (timeout now : Int) : Bool × String :=
  match pod.phase with
  | Phase.pending => scanContainers pod.creationTimestamp timeout now pod.containerStatuses
  | Phase.running => scanContainers pod.creationTimestamp timeout now pod.containerStatuses
  | _ => (false, "")

/-- The process-wide map podProblemTimes: pod name to the time the
problem was first observed. -/
def PodMap : Type := String → Option Int

/-- The empty podProblemTimes map. -/
def emptyMap : PodMap := fun _ => none

/-- Map update, modelling podProblemTimes[name] = t. -/
def mapInsert (m : PodMap) (k : String) (v : Int) : PodMap :=
  fun x => if x = k then some v else m x

/-- Map removal, modelling delete(podProblemTimes, name). -/
def mapDelete (m : PodMap) (k : String) : PodMap :=
  fun x => if x = k then none else m x

/-- The delete options built inside restartPod. -/
structure DeleteOptions where
  gracePeriodSeconds : Int
  propagationPolicy : String
deriving DecidableEq, Repr

/-- restartPod issues a pod delete with grace period 0 and foreground
cascade. -/
def restartPodOptions : DeleteOptions :=
  { gracePeriodSeconds := 0, propagationPolicy := "Foreground" }

/-- One remediation call observed at the orchestrator API: which pod was
deleted and with which options. -/
structure RemediationCall where
  ns : String
  podName : String
  opts : DeleteOptions
deriving DecidableEq, Repr

/-- The per-pod body of the loop in checkPods: classify, then update the
podProblemTimes map, possibly issuing one restartPod call. Returns the
new map, the remediation calls issued (none or one) and the log lines
written. restartFails tells whether the restartPod call, if issued,
returns an error; the source only branches on it to pick a log line. -/
def podStep (restartFails : Bool) (pod : Pod) (timeout now : Int) (m : PodMap) :
    PodMap × List RemediationCall × List String :=
  let sr := shouldRestartPod pod timeout now
  if sr.1 then
    match m pod.name with
    | none =>
      (mapInsert m pod.name now, [],
        ["Problem detected: " ++ pod.name ++ " (" ++ sr.2 ++ ") — starting timer"])
    | some firstSeen =>
      if now - firstSeen ≥ timeout then
        (mapDelete m pod.name,
          [{ ns := pod.ns, podName := pod.name, opts := restartPodOptions }],
          ["Restarting pod " ++ pod.name ++ " (stuck " ++ toString (now - firstSeen) ++
             ", reason=" ++ sr.2 ++ ")",
           if restartFails then "restart error for pod " ++ pod.name
           else "restart OK for pod " ++ pod.name])
      else (m, [], [])
  else (mapDelete m pod.name, [], [])

/-- The pod loop of checkPods over the listing, threading the map left to
right and concatenating calls and logs. -/
def checkPodsLoop (restartFails : String → Bool) (timeout now : Int) :
    List Pod → PodMap → PodMap × List RemediationCall × List String
  | [], m => (m, [], [])
  | p :: rest, m =>
    let r := podStep (restartFails p.name) p timeout now m
    let r2 := checkPodsLoop restartFails timeout now rest r.1
    (r2.1, r.2.1 ++ r2.2.1, r.2.2 ++ r2.2.2)

/-- checkPods: on a listing error the function logs and returns before
touching the map; otherwise it runs the pod loop at one reading of the
clock. -/
def checkPods (restartFails : String → Bool) (timeout now : Int)
    (listing : Except String (List Pod)) (m : PodMap) :
    PodMap × List RemediationCall × List String :=
  match listing with
  | Except.error e => (m, [], ["list pods error: " ++ e])
  | Except.ok pods => checkPodsLoop restartFails timeout now pods m

/-- A run of the controller loop: one checkPods cycle per element of the
schedule, each with its own clock reading and listing result, starting
from a given map. Returns the final map and all remediation calls in
order. -/
def runCycles (restartFails : String → Bool) (timeout : Int) :
    List (Int × Except String (List Pod)) → PodMap → PodMap × List RemediationCall
  | [], m => (m, [])
  | (now, listing) :: rest, m =>
    let r := checkPods restartFails timeout now listing m
    let r2 := runCycles restartFails timeout rest r.1
    (r2.1, r.2.1 ++ r2.2)

/-!  Configuration parsing.

The Go code reads environment values through os.Getenv, which yields the
empty string for an unset variable, so an environment value is modelled
as a String where the empty string means unset. Durations are int64
nanosecond counts in Go; the embedding keeps them as Int wrapped to the
signed 64-bit range where the source multiplies.
-/

/-- getEnv from the source: the default replaces an empty value. -/
def getEnv (val dflt : String) : String :=
  if val = "" then dflt else val

/-- Numeric value of a decimal digit character, none otherwise. -/
def digitVal (c : Char) : Option Nat :=
  if c.isDigit then some (c.toNat - 48) else none

/-- Accumulate a run of decimal digits, failing on any other character. -/
def parseDigitsAux : List Char → Nat → Option Nat
  | [], acc => some acc
  | c :: rest, acc =>
    match digitVal c with
    | some d => parseDigitsAux rest (acc * 10 + d)
    | none => none

/-- A nonempty all-digit run parsed as a Nat. -/
def parseDigits : List Char → Option Nat
  | [] => none
  | c :: rest => parseDigitsAux (c :: rest) 0

/-- Largest signed 64-bit integer. -/
def int64max : Int := 9223372036854775807

/-- Smallest signed 64-bit integer. -/
def int64min : Int := -9223372036854775808

/-- strconv.Atoi on a 64-bit platform: an optional single sign followed
by a nonempty digit run, with values outside the int64 range rejected
(Go reports ErrRange there and the callers treat any error alike). -/
def atoi (s : String) : Option Int :=
  let cs := s.toList
  let signed : Int × List Char :=
    match cs with
    | '+' :: rest => (1, rest)
    | '-' :: rest => (-1, rest)
    | _ => (1, cs)
  match parseDigits signed.2 with
  | none => none
  | some n =>
    let v : Int := signed.1 * (n : Int)
    if v < int64min ∨ v > int64max then none else some v

/-- Wrap an integer into the signed 64-bit range, as Go multiplication
of int64 values does. -/
def int64wrap (x : Int) : Int :=
  (x + 9223372036854775808) % 18446744073709551616 - 9223372036854775808

/-- One minute in nanoseconds (time.Minute). -/
def minuteNs : Int := 60000000000

/-- One second in nanoseconds (time.Second). -/
def secondNs : Int := 1000000000

/-- getPendingTimeout from the source; the result pairs the effective
duration in nanoseconds with whether the fallback warning was logged. -/
def getPendingTimeout (envVal : String) : Int × Bool :=
  let str := getEnv envVal "5"
  match atoi str with
  | some mins =>
    if mins ≤ 0 then (5 * minuteNs, true)
    else (int64wrap (mins * minuteNs), false)
  | none => (5 * minuteNs, true)

/-- getCheckInterval from the source; same shape as getPendingTimeout
with seconds and default 30. -/
def getCheckInterval (envVal : String) : Int × Bool :=
  let str := getEnv envVal "30"
  match atoi str with
  | some secs =>
    if secs ≤ 0 then (30 * secondNs, true)
    else (int64wrap (secs * secondNs), false)
  | none => (30 * secondNs, true)

/-!  Spec-side restatement of the classifier, for the refinement claim C2.
These definitions follow the words of the claim, to be compared with
shouldRestartPod, which is taken from the source. -/

/-- The watched waiting-reason set, as the claim lists it. -/
def watchedReasons : List String :=
  ["ContainerCreating", "ErrImagePull", "ImagePullBackOff",
   "CrashLoopBackOff", "CreateContainerConfigError"]

/-- Verdict of one container per the claim: (a) Waiting with a watched
reason while now minus pod creation exceeds the timeout gives that
reason; otherwise (b) Running with readiness false while now minus the
container start exceeds the timeout gives RunningNotReady. -/
def specVerdict (creation timeout now : Int) (cs : ContainerStatus) : Option String :=
  match cs.waitingReason with
  | some r =>
    if watchedReasons.contains r && decide (now - creation > timeout) then some r
    else
      match cs.runningStartedAt with
      | some startedAt =>
        if !cs.ready && decide (now - startedAt > timeout) then some "RunningNotReady" else none
      | none => none
  | none =>
    match cs.runningStartedAt with
    | some startedAt =>
      if !cs.ready && decide (now - startedAt > timeout) then some "RunningNotReady" else none
    | none => none

/-- The classifier as the claim words it: Succeeded, Failed and Unknown
are never stuck; otherwise the first container with a verdict decides,
and no container matching means not stuck. -/
def classifySpec (pod : Pod) (timeout now : Int) : Bool × String :=
  match pod.phase with
  | Phase.succeeded => (false, "")
  | Phase.failed => (false, "")
  | Phase.unknown => (false, "")
  | _ =>
    match pod.containerStatuses.findSome? (specVerdict pod.creationTimestamp timeout now) with
    | some r => (true, r)
    | none => (false, "")

/-!  Concrete data used by the scenario theorems and witnesses. -/

/-- Scenario A pod: created at time 0, one container Waiting with reason
ImagePullBackOff. Times in the scenario theorems are in seconds, with
the 5-minute timeout written as 300. -/
def p1 : Pod :=
  { name := "p1", ns := "default", phase := Phase.pending, creationTimestamp := 0,
    containerStatuses :=
      [{ waitingReason := some "ImagePullBackOff", runningStartedAt := none, ready := false }] }

/-- A healthy pod: Running with the container ready. -/
def podA : Pod :=
  { name := "a", ns := "default", phase := Phase.running, creationTimestamp := 0,
    containerStatuses :=
      [{ waitingReason := none, runningStartedAt := some 0, ready := true }] }

/-- The Scenario A schedule: n cycles 30 seconds apart starting at time
0, each listing exactly the pod p1. -/
def cyclesA (n : Nat) : List (Int × Except String (List Pod)) :=
  (List.range n).map (fun i => ((i * 30 : Int), Except.ok [p1]))

/-- The full Scenario A schedule: cycles at 0, 30, ..., 630, then one
more cycle at 660 in which p1, deleted by the remediation, is no longer
listed. -/
def cyclesFullA : List (Int × Except String (List Pod)) :=
  cyclesA 22 ++ [(660, Except.ok [])]

/-- A tracker map holding one record, for the pod named p1 first seen
stuck at time 330. -/
def trackA : PodMap := mapInsert emptyMap "p1" 330

/-- A tracker map that agrees with trackA at the key p1 but holds one
more record elsewhere. -/
def trackB : PodMap := mapInsert (mapInsert emptyMap "x" 7) "p1" 330

/-!  Helper lemmas: the four branches of podStep, and frame and
congruence facts about the tracker map. -/

/-- A pod not classified stuck makes podStep delete its record and do
nothing else. -/
lemma podStep_not_stuck (rF : Bool) (p : Pod) (timeout now : Int) (m : PodMap)
    (h : (shouldRestartPod p timeout now).1 = false) :
    podStep rF p timeout now m = (mapDelete m p.name, [], []) := by
  simp only [podStep, h]
  simp

/-- A stuck pod with no record makes podStep insert a record at now. -/
lemma podStep_start (rF : Bool) (p : Pod) (timeout now : Int) (m : PodMap)
    (h : (shouldRestartPod p timeout now).1 = true) (hm : m p.name = none) :
    podStep rF p timeout now m =
      (mapInsert m p.name now, [],
        ["Problem detected: " ++ p.name ++ " (" ++ (shouldRestartPod p timeout now).2 ++
           ") — starting timer"]) := by
  simp only [podStep, h, hm]
  simp

/-- A stuck pod whose record is at least timeout old makes podStep issue
the one restartPod call and delete the record, whatever the outcome of
the call. -/
lemma podStep_fire (rF : Bool) (p : Pod) (timeout now : Int) (m : PodMap) (T0 : Int)
    (h : (shouldRestartPod p timeout now).1 = true) (hm : m p.name = some T0)
    (hge : timeout ≤ now - T0) :
    podStep rF p timeout now m =
      (mapDelete m p.name,
        [{ ns := p.ns, podName := p.name, opts := restartPodOptions }],
        ["Restarting pod " ++ p.name ++ " (stuck " ++ toString (now - T0) ++
           ", reason=" ++ (shouldRestartPod p timeout now).2 ++ ")",
         if rF then "restart error for pod " ++ p.name
         else "restart OK for pod " ++ p.name]) := by
  simp only [podStep, h, hm]
  simp [ge_iff_le, hge]

/-- A stuck pod whose record is younger than the timeout leaves podStep
with the map unchanged and no output. -/
lemma podStep_wait (rF : Bool) (p : Pod) (timeout now : Int) (m : PodMap) (T0 : Int)
    (h : (shouldRestartPod p timeout now).1 = true) (hm : m p.name = some T0)
    (hlt : now - T0 < timeout) :
    podStep rF p timeout now m = (m, [], []) := by
  simp only [podStep, h, hm]
  simp [ge_iff_le, not_le.mpr hlt]

/-- podStep never touches map entries of other names. -/
lemma podStep_map_ne (rF : Bool) (p : Pod) (timeout now : Int) (m : PodMap)
    (k : String) (h : k ≠ p.name) :
    (podStep rF p timeout now m).1 k = m k := by
  cases hst : (shouldRestartPod p timeout now).1 with
  | false => rw [podStep_not_stuck rF p timeout now m hst]; simp [mapDelete, h]
  | true =>
    cases hm : m p.name with
    | none => rw [podStep_start rF p timeout now m hst hm]; simp [mapInsert, h]
    | some T0 =>
      rcases le_or_lt timeout (now - T0) with hge | hlt
      · rw [podStep_fire rF p timeout now m T0 hst hm hge]; simp [mapDelete, h]
      · rw [podStep_wait rF p timeout now m T0 hst hm hlt]

/-- The checkPods loop never touches map entries whose name is not in
the listing. -/
lemma checkPodsLoop_frame (rF : String → Bool) (timeout now : Int)
    (pods : List Pod) (m : PodMap) (k : String)
    (h : ∀ p ∈ pods, p.name ≠ k) :
    (checkPodsLoop rF timeout now pods m).1 k = m k := by
  induction pods generalizing m with
  | nil => rfl
  | cons p rest ih =>
    have hp : k ≠ p.name := Ne.symm (h p (List.mem_cons_self p rest))
    simp only [checkPodsLoop]
    rw [ih ((podStep (rF p.name) p timeout now m).1)
        (fun q hq => h q (List.mem_cons_of_mem p hq)),
      podStep_map_ne (rF p.name) p timeout now m k hp]

/-- The remediation decision of podStep for a pod depends on the map only
at the key that is the pod name. -/
lemma podStep_calls_congr (rF : Bool) (q : Pod) (t n : Int) (m₁ m₂ : PodMap)
    (h : m₁ q.name = m₂ q.name) :
    (podStep rF q t n m₁).2.1 = (podStep rF q t n m₂).2.1 := by
  cases hst : (shouldRestartPod q t n).1 with
  | false => rw [podStep_not_stuck rF q t n m₁ hst, podStep_not_stuck rF q t n m₂ hst]
  | true =>
    cases hm : m₁ q.name with
    | none =>
      rw [podStep_start rF q t n m₁ hst hm, podStep_start rF q t n m₂ hst (h ▸ hm)]
    | some T0 =>
      rcases le_or_lt t (n - T0) with hge | hlt
      · rw [podStep_fire rF q t n m₁ T0 hst hm hge,
          podStep_fire rF q t n m₂ T0 hst (h ▸ hm) hge]
      · rw [podStep_wait rF q t n m₁ T0 hst hm hlt,
          podStep_wait rF q t n m₂ T0 hst (h ▸ hm) hlt]

/-- Membership in the spec-worded watched list agrees with the source
membership test reasonsToWatch. -/
lemma contains_eq_reasons (r : String) : watchedReasons.contains r = reasonsToWatch r := by
  simp [watchedReasons, reasonsToWatch, List.contains, List.elem_cons, Bool.or_assoc]

/-- The container scan of the source equals the first-match-wins rule of
the spec restatement. -/
lemma scan_eq_spec (c t n : Int) (l : List ContainerStatus) :
    scanContainers c t n l =
      match l.findSome? (specVerdict c t n) with
      | some r => (true, r)
      | none => (false, "") := by
  induction l with
  | nil => rfl
  | cons cs rest ih =>
    simp only [scanContainers, List.findSome?]
    cases hw : cs.waitingReason with
    | some r =>
      simp only [waitingCheck, specVerdict, hw, contains_eq_reasons]
      by_cases hr : (reasonsToWatch r && decide (n - c > t)) = true
      · simp [hr]
      · simp only [Bool.not_eq_true] at hr
        simp only [hr, Bool.false_eq_true, if_false]
        cases hs : cs.runningStartedAt with
        | some st =>
          simp only [runningCheck, hs]
          by_cases h2 : (!cs.ready && decide (n - st > t)) = true
          · simp [h2]
          · simp only [Bool.not_eq_true] at h2
            simp [h2, ih]
        | none => simp [runningCheck, hs, ih]
    | none =>
      simp only [waitingCheck, specVerdict, hw]
      cases hs : cs.runningStartedAt with
      | some st =>
        simp only [runningCheck, hs]
        by_cases h2 : (!cs.ready && decide (n - st > t)) = true
        · simp [h2]
        · simp only [Bool.not_eq_true] at h2
          simp [h2, ih]
      | none => simp [runningCheck, hs, ih]

/-- The per-pod map update of podStep at the pod name itself depends on
the incoming map only through its value at that name. -/
lemma podStep_map_congr (rF : Bool) (p : Pod) (t n : Int) (m₁ m₂ : PodMap)
    (h : m₁ p.name = m₂ p.name) :
    (podStep rF p t n m₁).1 p.name = (podStep rF p t n m₂).1 p.name := by
  cases hst : (shouldRestartPod p t n).1 with
  | false =>
    rw [podStep_not_stuck rF p t n m₁ hst, podStep_not_stuck rF p t n m₂ hst]
    simp [mapDelete]
  | true =>
    cases hm : m₁ p.name with
    | none =>
      rw [podStep_start rF p t n m₁ hst hm, podStep_start rF p t n m₂ hst (h ▸ hm)]
      simp [mapInsert]
    | some T0 =>
      rcases le_or_lt t (n - T0) with hge | hlt
      · rw [podStep_fire rF p t n m₁ T0 hst hm hge,
          podStep_fire rF p t n m₂ T0 hst (h ▸ hm) hge]
        simp [mapDelete]
      · rw [podStep_wait rF p t n m₁ T0 hst hm hlt,
          podStep_wait rF p t n m₂ T0 hst (h ▸ hm) hlt]
        exact h

/-- Two pods with the same name and the same classification drive the
tracker map identically, whatever their other fields and whatever the
remediation outcomes. -/
lemma podStep_map_eq_of (rF rF2 : Bool) (p q : Pod) (t n : Int) (m : PodMap)
    (hname : q.name = p.name)
    (hsr : shouldRestartPod q t n = shouldRestartPod p t n) :
    (podStep rF2 q t n m).1 = (podStep rF p t n m).1 := by
  cases hst : (shouldRestartPod p t n).1 with
  | false =>
    have hstq : (shouldRestartPod q t n).1 = false := by rw [hsr]; exact hst
    rw [podStep_not_stuck rF2 q t n m hstq, podStep_not_stuck rF p t n m hst, hname]
  | true =>
    have hstq : (shouldRestartPod q t n).1 = true := by rw [hsr]; exact hst
    cases hm : m p.name with
    | none =>
      have hmq : m q.name = none := by rw [hname]; exact hm
      rw [podStep_start rF2 q t n m hstq hmq, podStep_start rF p t n m hst hm, hname]
    | some T0 =>
      have hmq : m q.name = some T0 := by rw [hname]; exact hm
      rcases le_or_lt t (n - T0) with hge | hlt
      · rw [podStep_fire rF2 q t n m T0 hstq hmq hge,
          podStep_fire rF p t n m T0 hst hm hge, hname]
      · rw [podStep_wait rF2 q t n m T0 hstq hmq hlt,
          podStep_wait rF p t n m T0 hst hm hlt]

/-- After podStep, the pod has a record exactly when it was classified
stuck and the record it has is younger than the timeout. -/
lemma podStep_self_iff (rF : Bool) (p : Pod) (timeout now : Int) (m : PodMap)
    (hpos : 0 < timeout) :
    (((podStep rF p timeout now m).1 p.name).isSome = true) ↔
      ((shouldRestartPod p timeout now).1 = true ∧
        ∃ fs, (podStep rF p timeout now m).1 p.name = some fs ∧ now - fs < timeout) := by
  cases hst : (shouldRestartPod p timeout now).1 with
  | false =>
    rw [podStep_not_stuck rF p timeout now m hst]
    simp [mapDelete]
  | true =>
    cases hm : m p.name with
    | none =>
      rw [podStep_start rF p timeout now m hst hm]
      simp [mapInsert]
      omega
    | some T0 =>
      rcases le_or_lt timeout (now - T0) with hge | hlt
      · rw [podStep_fire rF p timeout now m T0 hst hm hge]
        simp [mapDelete]
      · rw [podStep_wait rF p timeout now m T0 hst hm hlt]
        simp [hm]
        omega

/-- atoi rejects the empty string. -/
lemma atoi_empty : atoi "" = none := rfl

/-- Wrapping to the signed 64-bit range is the identity inside it. -/
lemma int64wrap_id (x : Int) (h0 : 0 ≤ x) (h : x ≤ int64max) : int64wrap x = x := by
  unfold int64wrap
  unfold int64max at h
  omega

/-!  The claims. -/

/-- Claim C1, counterexample to the stated timing: in Scenario A
(pod p1 created at time 0, Waiting with reason ImagePullBackOff,
timeout 5 minutes = 300 seconds, cycles every 30 seconds from time 0),
no remediation at all has been issued through the cycle at t = 600
seconds (10 minutes), so in particular none at the cycle nearest to
5m10s; the tracker instead holds a record first seen at t = 330, the
first cycle at which the pod age exceeded the timeout. The claimed
threshold crossing at about 5m10s ignores that the classifier itself
already requires the pod age to exceed the timeout before tracking even
starts. -/
theorem watchdog_c1_cex :
    (runCycles (fun _ => false) 300 (cyclesA 21) emptyMap).2 = [] ∧
    (runCycles (fun _ => false) 300 (cyclesA 21) emptyMap).1 "p1" = some 330 :=
  ⟨rfl, rfl⟩

/-- Claim C1 as amended: in Scenario A the record for p1 first appears
at t = 330 and crosses the threshold at t = 630 (10m30s, about twice
the timeout), where exactly one remediation — a delete with grace
period 0 and foreground propagation — is issued, whether or not the
delete call errors; no remediation is issued at any earlier cycle, and
at the next cycle (t = 660, p1 gone from the listing) p1 has no
ProblemRecord. -/
theorem watchdog_c1 :
    (runCycles (fun _ => false) 300 (cyclesA 22) emptyMap).2 =
      [{ ns := "default", podName := "p1", opts := restartPodOptions }] ∧
    (runCycles (fun _ => true) 300 (cyclesA 22) emptyMap).2 =
      [{ ns := "default", podName := "p1", opts := restartPodOptions }] ∧
    (runCycles (fun _ => false) 300 (cyclesA 21) emptyMap).2 = [] ∧
    (runCycles (fun _ => false) 300 cyclesFullA emptyMap).1 "p1" = none ∧
    (runCycles (fun _ => true) 300 cyclesFullA emptyMap).1 "p1" = none :=
  ⟨rfl, rfl, rfl, rfl, rfl⟩

/-- Claim C2: for every pod snapshot, timeout and clock reading, the
source classifier shouldRestartPod equals the rule the claim states —
Succeeded, Failed and Unknown phases are never stuck; otherwise the
first container matching either the watched-Waiting-plus-age rule or
the Running-not-Ready-plus-age rule decides, later containers are not
inspected, and no match (for example a reason like PodInitializing
outside the watched set) means not stuck. The empty string stands for
the absent reason. -/
theorem watchdog_c2 (pod : Pod) (timeout now : Int) :
    shouldRestartPod pod timeout now = classifySpec pod timeout now := by
  obtain ⟨nm, ns, ph, ct, cst⟩ := pod
  cases ph <;> first | rfl | exact scan_eq_spec ct timeout now cst

/-- Claim C3: one tracker update per pod per cycle behaves as claimed —
not stuck deletes any record and does nothing else; stuck with no record
inserts a record at now and starts tracking; stuck with a record at T0
fires the remediation exactly when now - T0 has reached the timeout,
logging the elapsed time now - T0 and the current reason and deleting
the record, and otherwise changes nothing. -/
theorem watchdog_c3 (rF : Bool) (p : Pod) (timeout now : Int) (m : PodMap) :
    ((shouldRestartPod p timeout now).1 = false →
      podStep rF p timeout now m = (mapDelete m p.name, [], [])) ∧
    ((shouldRestartPod p timeout now).1 = true → m p.name = none →
      podStep rF p timeout now m =
        (mapInsert m p.name now, [],
          ["Problem detected: " ++ p.name ++ " (" ++ (shouldRestartPod p timeout now).2 ++
             ") — starting timer"])) ∧
    (∀ T0, (shouldRestartPod p timeout now).1 = true → m p.name = some T0 →
      (now - T0 ≥ timeout →
        podStep rF p timeout now m =
          (mapDelete m p.name,
            [{ ns := p.ns, podName := p.name, opts := restartPodOptions }],
            ["Restarting pod " ++ p.name ++ " (stuck " ++ toString (now - T0) ++
               ", reason=" ++ (shouldRestartPod p timeout now).2 ++ ")",
             if rF then "restart error for pod " ++ p.name
             else "restart OK for pod " ++ p.name])) ∧
      (now - T0 < timeout → podStep rF p timeout now m = (m, [], []))) :=
  ⟨fun h => podStep_not_stuck rF p timeout now m h,
   fun h hm => podStep_start rF p timeout now m h hm,
   fun T0 h hm =>
     ⟨fun hge => podStep_fire rF p timeout now m T0 h hm hge,
      fun hlt => podStep_wait rF p timeout now m T0 h hm hlt⟩⟩

/-- Witness for C3 at concrete inputs: the stuck pod p1 with a record
370 seconds old fires the delete and clears the record, and the healthy
pod podA has its record deleted. -/
theorem watchdog_c3_witness :
    podStep false p1 300 700 (mapInsert emptyMap "p1" 330) =
      (mapDelete (mapInsert emptyMap "p1" 330) "p1",
        [{ ns := "default", podName := "p1", opts := restartPodOptions }],
        ["Restarting pod p1 (stuck 370, reason=ImagePullBackOff)",
         "restart OK for pod p1"]) ∧
    podStep false podA 300 700 (mapInsert emptyMap "a" 500) =
      (mapDelete (mapInsert emptyMap "a" 500) "a", [], []) :=
  ⟨((watchdog_c3 false p1 300 700 (mapInsert emptyMap "p1" 330)).2.2 330
      (by decide) (by decide)).1 (by decide),
   (watchdog_c3 false podA 300 700 (mapInsert emptyMap "a" 500)).1 (by decide)⟩

/-- Claim C4: for a stuck episode with record first seen at T0, over any
cycles all before the threshold followed by the first cycle at or past
it, with the pod classified stuck throughout, exactly one remediation
call is issued in the whole run — at that last cycle — and immediately
afterwards the tracker holds no record for the pod, whatever the
outcome oracle says about the remediation call. -/
theorem watchdog_c4 (rF : String → Bool) (p : Pod) (timeout T0 : Int) (m : PodMap)
    (ts : List Int) (tfin : Int)
    (hm : m p.name = some T0)
    (hts : ∀ x ∈ ts, (shouldRestartPod p timeout x).1 = true ∧ x - T0 < timeout)
    (hstuck : (shouldRestartPod p timeout tfin).1 = true)
    (hfin : tfin - T0 ≥ timeout) :
    (runCycles rF timeout ((ts ++ [tfin]).map (fun x => (x, Except.ok [p]))) m).2 =
      [{ ns := p.ns, podName := p.name, opts := restartPodOptions }] ∧
    (runCycles rF timeout ((ts ++ [tfin]).map (fun x => (x, Except.ok [p]))) m).1 p.name =
      none := by
  induction ts with
  | nil =>
    simp only [List.nil_append, List.map_cons, List.map_nil, runCycles, checkPods,
      checkPodsLoop]
    rw [podStep_fire (rF p.name) p timeout tfin m T0 hstuck hm hfin]
    exact ⟨rfl, by simp [mapDelete]⟩
  | cons x rest ih =>
    have hx := hts x (List.mem_cons_self x rest)
    simp only [List.cons_append, List.map_cons, runCycles, checkPods, checkPodsLoop]
    rw [podStep_wait (rF p.name) p timeout x m T0 hx.1 hm hx.2]
    simpa using ih (fun y hy => hts y (List.mem_cons_of_mem x hy))

/-- Witness for C4: the record for p1 first seen at 330 survives the
cycles at 360 and 390 untouched, then the cycle at 630 issues the one
delete and leaves no record. -/
theorem watchdog_c4_witness :
    (runCycles (fun _ => false) 300
        (([360, 390] ++ [630]).map (fun x => (x, Except.ok [p1])))
        (mapInsert emptyMap "p1" 330)).2 =
      [{ ns := "default", podName := "p1", opts := restartPodOptions }] ∧
    (runCycles (fun _ => false) 300
        (([360, 390] ++ [630]).map (fun x => (x, Except.ok [p1])))
        (mapInsert emptyMap "p1" 330)).1 "p1" = none :=
  watchdog_c4 (fun _ => false) p1 300 330 (mapInsert emptyMap "p1" 330) [360, 390] 630
    (by decide) (by decide) (by decide) (by decide)

/-- Claim C5, counterexample to the stated invariant: a ProblemRecord
can outlive both conjuncts of the claimed right-hand side. After a
cycle at time 1000 whose listing is empty, the record for the entity
named ghost, first seen at 0, is still present although the Inspector
classified nothing on that cycle and the elapsed time 1000 is not below
the timeout 300: the claimed equivalence quantified over every entity
fails for entities absent from the listing. -/
theorem watchdog_c5_cex :
    (checkPods (fun _ => false) 300 1000 (Except.ok [])
        (mapInsert emptyMap "ghost" 0)).1 "ghost" = some 0 ∧
    ¬ ((1000 : Int) - 0 < 300) :=
  ⟨rfl, by decide⟩

/-- Claim C5 as amended: restricted to the entities that appear in the
cycle listing (with pairwise distinct names, as pods of one namespace
have, and a positive timeout), the invariant holds — after the cycle an
entity has a ProblemRecord exactly when it was classified stuck on that
cycle and the elapsed time since the record first-seen timestamp is
below the timeout. Records of entities absent from the listing persist
unchanged instead (claim C9). -/
theorem watchdog_c5 (rF : String → Bool) (timeout now : Int) (pods : List Pod)
    (m : PodMap) (p : Pod) (hpos : 0 < timeout)
    (hnodup : (pods.map Pod.name).Nodup) (hp : p ∈ pods) :
    (((checkPodsLoop rF timeout now pods m).1 p.name).isSome = true) ↔
      ((shouldRestartPod p timeout now).1 = true ∧
        ∃ fs, (checkPodsLoop rF timeout now pods m).1 p.name = some fs ∧
          now - fs < timeout) := by
  induction pods generalizing m with
  | nil => cases hp
  | cons q rest ih =>
    simp only [List.map_cons, List.nodup_cons] at hnodup
    rcases List.mem_cons.mp hp with heq | hrest
    · subst heq
      have hframe := checkPodsLoop_frame rF timeout now rest
        ((podStep (rF p.name) p timeout now m).1) p.name
        (fun x hx hxe => hnodup.1 (hxe ▸ List.mem_map_of_mem Pod.name hx))
      simp only [checkPodsLoop]
      rw [hframe]
      exact podStep_self_iff (rF p.name) p timeout now m hpos
    · simp only [checkPodsLoop]
      exact ih ((podStep (rF q.name) q timeout now m).1) hnodup.2 hrest

/-- Witness for C5 at a concrete cycle: p1 listed alone at time 400 with
timeout 300. -/
theorem watchdog_c5_witness :
    (((checkPodsLoop (fun _ => false) 300 400 [p1] emptyMap).1 "p1").isSome = true) ↔
      ((shouldRestartPod p1 300 400).1 = true ∧
        ∃ fs, (checkPodsLoop (fun _ => false) 300 400 [p1] emptyMap).1 "p1" = some fs ∧
          400 - fs < 300) :=
  watchdog_c5 (fun _ => false) 300 400 [p1] emptyMap p1 (by decide) (by decide) (by decide)

/-- Claim C6, counterexample as stated: the source classifier reads the
wall clock through time.Since, so two calls on the identical snapshot p1
and identical timeout 300, made at clock readings 100 and 400, return
different results — the classification is not a function of snapshot and
timeout alone. -/
theorem watchdog_c6_cex : shouldRestartPod p1 300 100 ≠ shouldRestartPod p1 300 400 := by
  decide

/-- Claim C6 as amended: the classifier is a pure function of the
snapshot, the timeout and the current clock reading — it keeps no state,
and identical snapshot, timeout and clock produce identical results;
only calls at different clock readings may differ. -/
theorem watchdog_c6 (pod pod2 : Pod) (timeout timeout2 now now2 : Int)
    (hpod : pod = pod2) (ht : timeout = timeout2) (hn : now = now2) :
    shouldRestartPod pod timeout now = shouldRestartPod pod2 timeout2 now2 := by
  subst hpod; subst ht; subst hn; rfl

/-- Witness for C6 at a concrete call. -/
theorem watchdog_c6_witness :
    shouldRestartPod p1 300 400 = shouldRestartPod p1 300 400 :=
  watchdog_c6 p1 p1 300 300 400 400 rfl rfl rfl

/-- Claim C7: when the listing call fails, checkPods returns before the
loop body, so the set of ProblemRecords after the cycle is exactly the
map before it — the very same function, so no record is created,
deleted or retimed — and no remediation call is issued. -/
theorem watchdog_c7 (rF : String → Bool) (timeout now : Int) (e : String) (m : PodMap) :
    (checkPods rF timeout now (Except.error e) m).1 = m ∧
    (checkPods rF timeout now (Except.error e) m).2.1 = [] :=
  ⟨rfl, rfl⟩

/-- Claim C8, counterexample to the stated parsing rule: the string
9223372036854775808 is a positive integer string, but it exceeds the
signed 64-bit range, so strconv.Atoi reports an error and the code falls
back to the 5-minute default with a warning instead of yielding that
many minutes. -/
theorem watchdog_c8_cex :
    getPendingTimeout "9223372036854775808" = (5 * minuteNs, true) ∧
    (5 * minuteNs : Int) ≠ 9223372036854775808 * minuteNs := by
  constructor
  · rfl
  · decide

/-- Claim C8 as amended: a positive integer string whose value parses
within the signed 64-bit range and whose resulting duration in
nanoseconds also fits yields exactly that many minutes (respectively
seconds) with no warning; a non-empty value that is non-numeric, out of
the 64-bit parse range, or non-positive yields the default of 5 minutes
(respectively 30 seconds) with a warning; an unset (empty) value yields
the default without a warning. -/
theorem watchdog_c8 :
    (∀ s v, atoi s = some v → 0 < v → v * minuteNs ≤ int64max →
      getPendingTimeout s = (v * minuteNs, false)) ∧
    (∀ s, s ≠ "" → atoi s = none → getPendingTimeout s = (5 * minuteNs, true)) ∧
    (∀ s v, atoi s = some v → v ≤ 0 → getPendingTimeout s = (5 * minuteNs, true)) ∧
    getPendingTimeout "" = (5 * minuteNs, false) ∧
    (∀ s v, atoi s = some v → 0 < v → v * secondNs ≤ int64max →
      getCheckInterval s = (v * secondNs, false)) ∧
    (∀ s, s ≠ "" → atoi s = none → getCheckInterval s = (30 * secondNs, true)) ∧
    (∀ s v, atoi s = some v → v ≤ 0 → getCheckInterval s = (30 * secondNs, true)) ∧
    getCheckInterval "" = (30 * secondNs, false) := by
  refine ⟨?_, ?_, ?_, by decide, ?_, ?_, ?_, by decide⟩
  · intro s v hv hpos hble
    have hne : s ≠ "" := by intro h; rw [h, atoi_empty] at hv; cases hv
    simp only [getPendingTimeout, getEnv, if_neg hne, hv]
    rw [if_neg (not_le.mpr hpos), int64wrap_id]
    · simp only [minuteNs]; omega
    · exact hble
  · intro s hne hv
    simp only [getPendingTimeout, getEnv, if_neg hne, hv]
  · intro s v hv hle
    have hne : s ≠ "" := by intro h; rw [h, atoi_empty] at hv; cases hv
    simp only [getPendingTimeout, getEnv, if_neg hne, hv]
    rw [if_pos hle]
  · intro s v hv hpos hble
    have hne : s ≠ "" := by intro h; rw [h, atoi_empty] at hv; cases hv
    simp only [getCheckInterval, getEnv, if_neg hne, hv]
    rw [if_neg (not_le.mpr hpos), int64wrap_id]
    · simp only [secondNs]; omega
    · exact hble
  · intro s hne hv
    simp only [getCheckInterval, getEnv, if_neg hne, hv]
  · intro s v hv hle
    have hne : s ≠ "" := by intro h; rw [h, atoi_empty] at hv; cases hv
    simp only [getCheckInterval, getEnv, if_neg hne, hv]
    rw [if_pos hle]

/-- Witness for C8 on the spec examples: 7 parses to 7 minutes, abc and
-5 fall back with a warning, and the unset value falls back silently. -/
theorem watchdog_c8_witness :
    getPendingTimeout "7" = (7 * minuteNs, false) ∧
    getPendingTimeout "abc" = (5 * minuteNs, true) ∧
    getCheckInterval "-5" = (30 * secondNs, true) ∧
    getCheckInterval "" = (30 * secondNs, false) := by
  obtain ⟨h1, h2, h3, h4, h5, h6, h7, h8⟩ := watchdog_c8
  exact ⟨h1 "7" 7 (by decide) (by decide) (by decide),
    h2 "abc" (by decide) (by decide),
    h7 "-5" (-5) (by decide) (by decide),
    h8⟩

/-- Claim C9: a cycle touches tracker records only for names that appear
in its listing — a record whose name is absent is preserved unchanged —
and a pod that later reappears under that name is judged against the
preserved first-seen timestamp: its remediation decision is the same as
it would have been against the old map. -/
theorem watchdog_c9 (rF : String → Bool) (timeout now : Int) (pods : List Pod)
    (m : PodMap) (k : String) (h : ∀ p ∈ pods, p.name ≠ k) :
    (checkPodsLoop rF timeout now pods m).1 k = m k ∧
    ∀ (rF2 : Bool) (q : Pod) (t2 n2 : Int), q.name = k →
      (podStep rF2 q t2 n2 (checkPodsLoop rF timeout now pods m).1).2.1 =
        (podStep rF2 q t2 n2 m).2.1 := by
  have hframe := checkPodsLoop_frame rF timeout now pods m k h
  refine ⟨hframe, fun rF2 q t2 n2 hq => ?_⟩
  exact podStep_calls_congr rF2 q t2 n2 _ m (by rw [hq, hframe])

/-- Witness for C9: a cycle listing only podA leaves the record of the
absent name p1 unchanged, and a pod named p1 processed afterwards makes
the same decision as against the original map. -/
theorem watchdog_c9_witness :
    (checkPodsLoop (fun _ => false) 300 400 [podA] (mapInsert emptyMap "p1" 50)).1 "p1" =
      mapInsert emptyMap "p1" 50 "p1" ∧
    (podStep false p1 300 700 (checkPodsLoop (fun _ => false) 300 400 [podA]
        (mapInsert emptyMap "p1" 50)).1).2.1 =
      (podStep false p1 300 700 (mapInsert emptyMap "p1" 50)).2.1 := by
  have h := watchdog_c9 (fun _ => false) 300 400 [podA] (mapInsert emptyMap "p1" 50) "p1"
    (by decide)
  exact ⟨h.1, h.2 false p1 300 700 rfl⟩

/-- Claim C10: tracker records are keyed by the pod name alone, not by
the (namespace, name) identity — changing only the namespace of a pod
changes nothing in how the map is read or written, a step writes no key
other than the pod name, and both the updated value at that key and the
remediation decision depend on the incoming map only through that one
key. -/
theorem watchdog_c10 (p : Pod) (ns2 : String) (rF : Bool) (timeout now : Int)
    (m m2 : PodMap) (hm : m p.name = m2 p.name) :
    (podStep rF { p with ns := ns2 } timeout now m).1 = (podStep rF p timeout now m).1 ∧
    (∀ k, k ≠ p.name → (podStep rF p timeout now m).1 k = m k) ∧
    (podStep rF p timeout now m).1 p.name = (podStep rF p timeout now m2).1 p.name ∧
    (podStep rF p timeout now m).2.1 = (podStep rF p timeout now m2).2.1 :=
  ⟨podStep_map_eq_of rF rF p { p with ns := ns2 } timeout now m rfl rfl,
   fun k hk => podStep_map_ne rF p timeout now m k hk,
   podStep_map_congr rF p timeout now m m2 hm,
   podStep_calls_congr rF p timeout now m m2 hm⟩

/-- Witness for C10: p1 in another namespace drives the map of trackA
identically, other keys are untouched, and the maps trackA and trackB,
equal at the key p1, give the same record update and the same decision
there. -/
theorem watchdog_c10_witness :
    (podStep false { p1 with ns := "other" } 300 700 trackA).1 =
      (podStep false p1 300 700 trackA).1 ∧
    (podStep false p1 300 700 trackA).1 "zz" = trackA "zz" ∧
    (podStep false p1 300 700 trackA).1 "p1" = (podStep false p1 300 700 trackB).1 "p1" ∧
    (podStep false p1 300 700 trackA).2.1 = (podStep false p1 300 700 trackB).2.1 := by
  have h := watchdog_c10 p1 "other" false 300 700 trackA trackB (by decide)
  exact ⟨h.1, h.2.1 "zz" (by decide), h.2.2.1, h.2.2.2⟩
